import Mathlib

/-!
# Status endpoints of the Twitter client (`twitter/statuses.go`)

A shallow embedding of `StatusService` and its five operations `Show`,
`Lookup`, `Update`, `Retweet` and `Destroy`, followed by theorems about the
requests they hand to the HTTP-call-builder.

Layout of the model:

* Go values that occur in the parameter structs (`GoValue`) and the struct
  tags of every field (`Field`), read off the `url:"..."` tags of the source;
* the encoder of `github.com/google/go-querystring/query` (`isEmptyValue`,
  `valueString`, `reflectValue`), which the tags address;
* the request builder `github.com/dghubble/sling` (`Sling` with `New`, `Path`,
  `Get`, `Post`, `QueryStruct`, `BodyStruct`, `Request`, `Receive`);
* the transport as a function of the request history (`Doer`), so that every
  answer it may give is covered;
* the five operations, which return the three Go results together with the
  final state of the parameter object and of the request history.

`int64` values are integers: the code does no arithmetic on them, so no
overflow can occur and every theorem holds in particular on the 64-bit range.
Query and body parameters are kept as decoded key/value pairs (`Values`);
percent-escaping and the key order of the final wire text are not modelled.
URLs are texts; the builder's `Path` is modelled by the merge step of reference
resolution, which is exact for base URLs with a directory path (`dirBase`), and
every statement about a URL is made for such bases only.
-/

namespace Twitter

/-! ## Go values and formatting -/

/-- Decimal rendering of a signed integer, as `strconv.FormatInt(i, 10)` and the
`%d` verb of `fmt.Sprintf` produce it: a minus sign for negative numbers, then
the decimal digits without leading zeros. -/
def FormatInt : Int → String
  | Int.ofNat m => Nat.repr m
  | Int.negSucc m => "-" ++ Nat.repr (m + 1)

/-- Rendering of a boolean by `fmt.Sprint`. -/
def FormatBool (b : Bool) : String :=
  if b then "true" else "false"

/-- A `float64`, carried by the text `fmt.Sprint` prints for it. Floating-point
arithmetic is not modelled; the code only forwards these values. -/
structure Float64 where
  text : String
deriving DecidableEq, Repr

/-- The Go values stored in the fields of the parameter structs. A pointer is
an `Option`: `none` is the nil pointer. A slice is a list: the nil slice and
the empty slice are both `[]` (they have the same length, which is all the
encoder looks at). -/
inductive GoValue where
  | int64 (v : Int)
  | string (s : String)
  | boolPtr (p : Option Bool)
  | float64Ptr (p : Option Float64)
  | int64Slice (l : List Int)
deriving DecidableEq, Repr

/-- One struct field as the encoder sees it: the name and the options of its
`url` tag, and the value it holds. -/
structure Field where
  name : String
  omitempty : Bool
  comma : Bool
  value : GoValue
deriving DecidableEq, Repr

/-- Decoded form parameters (`url.Values`), in the order they were added. -/
abbrev Values := List (String × String)

/-- All values stored under a key (`v[key]`). -/
def Values.getAll (v : Values) (key : String) : List String :=
  (v.filter (fun kv => kv.1 = key)).map Prod.snd

/-- First value stored under a key, the empty string when there is none
(`url.Values.Get`). -/
def Values.Get (v : Values) (key : String) : String :=
  (Values.getAll v key).headD ""

/-- The keys that occur in a set of parameters. -/
def Values.keys (v : Values) : List String :=
  v.map Prod.fst

/-! ## The query encoder (go-querystring) -/

/-- The emptiness test behind `omitempty`: length zero for strings and slices,
zero for integers, nil for pointers. -/
def isEmptyValue : GoValue → Bool
  | GoValue.int64 v => v == 0
  | GoValue.string s => s.length == 0
  | GoValue.boolPtr p => p.isNone
  | GoValue.float64Ptr p => p.isNone
  | GoValue.int64Slice l => l.length == 0

/-- Text of a scalar value: pointers are followed (a nil pointer gives the empty
string), then the value is printed with `fmt.Sprint`. -/
def valueString : GoValue → String
  | GoValue.int64 v => FormatInt v
  | GoValue.string s => s
  | GoValue.boolPtr none => ""
  | GoValue.boolPtr (some b) => FormatBool b
  | GoValue.float64Ptr none => ""
  | GoValue.float64Ptr (some f) => f.text
  | GoValue.int64Slice l => "[" ++ " ".intercalate (l.map FormatInt) ++ "]"

/-- Encoding of one field: nothing when the tag says `omitempty` and the value
is empty; a slice tagged `comma` gives one pair whose value joins the elements
with commas, an untagged slice one pair per element; any other value gives one
pair. -/
def encodeField (f : Field) : Values :=
  if f.omitempty && isEmptyValue f.value then []
  else
    match f.value with
    | GoValue.int64Slice l =>
      if f.comma then [(f.name, ",".intercalate (l.map FormatInt))]
      else l.map (fun v => (f.name, FormatInt v))
    | v => [(f.name, valueString v)]

/-- Encoding of a struct: its fields in declaration order
(`query.Values` on a struct). -/
def reflectValue (fields : List Field) : Values :=
  (fields.map encodeField).flatten

/-! ## Parameter structs -/

/-- Parameters of `StatusService.Show`. -/
structure StatusShowParams where
  Id : Int := 0
  TrimUser : Option Bool := none
  IncludeMyRetweet : Option Bool := none
  IncludeEntities : Option Bool := none
deriving DecidableEq, Repr

/-- Parameters of `StatusService.Lookup`. -/
structure StatusLookupParams where
  Id : List Int := []
  TrimUser : Option Bool := none
  IncludeEntities : Option Bool := none
  Map : Option Bool := none
deriving DecidableEq, Repr

/-- Parameters of `StatusService.Update`. -/
structure StatusUpdateParams where
  Status : String := ""
  InReplyToStatusId : Int := 0
  PossiblySensitive : Option Bool := none
  Lat : Option Float64 := none
  Long : Option Float64 := none
  PlaceId : String := ""
  DisplayCoordinates : Option Bool := none
  TrimUser : Option Bool := none
  MediaIds : List Int := []
deriving DecidableEq, Repr

/-- Parameters of `StatusService.Retweet`. -/
structure StatusRetweetParams where
  Id : Int := 0
  TrimUser : Option Bool := none
deriving DecidableEq, Repr

/-- Parameters of `StatusService.Destroy`. -/
structure StatusDestroyParams where
  Id : Int := 0
  TrimUser : Option Bool := none
deriving DecidableEq, Repr

/-- Tagged fields of `StatusShowParams`. -/
def StatusShowParams.fields (p : StatusShowParams) : List Field :=
  [ ⟨"id", true, false, GoValue.int64 p.Id⟩,
    ⟨"trim_user", true, false, GoValue.boolPtr p.TrimUser⟩,
    ⟨"include_my_retweet", true, false, GoValue.boolPtr p.IncludeMyRetweet⟩,
    ⟨"include_entities", true, false, GoValue.boolPtr p.IncludeEntities⟩ ]

/-- Tagged fields of `StatusLookupParams`. -/
def StatusLookupParams.fields (p : StatusLookupParams) : List Field :=
  [ ⟨"id", true, true, GoValue.int64Slice p.Id⟩,
    ⟨"trim_user", true, false, GoValue.boolPtr p.TrimUser⟩,
    ⟨"include_entities", true, false, GoValue.boolPtr p.IncludeEntities⟩,
    ⟨"map", true, false, GoValue.boolPtr p.Map⟩ ]

/-- Tagged fields of `StatusUpdateParams`. -/
def StatusUpdateParams.fields (p : StatusUpdateParams) : List Field :=
  [ ⟨"status", true, false, GoValue.string p.Status⟩,
    ⟨"in_reply_to_status_id", true, false, GoValue.int64 p.InReplyToStatusId⟩,
    ⟨"possibly_sensitive", true, false, GoValue.boolPtr p.PossiblySensitive⟩,
    ⟨"lat", true, false, GoValue.float64Ptr p.Lat⟩,
    ⟨"long", true, false, GoValue.float64Ptr p.Long⟩,
    ⟨"place_id", true, false, GoValue.string p.PlaceId⟩,
    ⟨"display_coordinates", true, false, GoValue.boolPtr p.DisplayCoordinates⟩,
    ⟨"trim_user", true, false, GoValue.boolPtr p.TrimUser⟩,
    ⟨"media_ids", true, true, GoValue.int64Slice p.MediaIds⟩ ]

/-- Tagged fields of `StatusRetweetParams`. -/
def StatusRetweetParams.fields (p : StatusRetweetParams) : List Field :=
  [ ⟨"id", true, false, GoValue.int64 p.Id⟩,
    ⟨"trim_user", true, false, GoValue.boolPtr p.TrimUser⟩ ]

/-- Tagged fields of `StatusDestroyParams`. -/
def StatusDestroyParams.fields (p : StatusDestroyParams) : List Field :=
  [ ⟨"id", true, false, GoValue.int64 p.Id⟩,
    ⟨"trim_user", true, false, GoValue.boolPtr p.TrimUser⟩ ]

/-- The parameter objects a request builder can hold (its `interface{}`
arguments in this file). -/
inductive ParamStruct where
  | show (p : StatusShowParams)
  | lookup (p : StatusLookupParams)
  | update (p : StatusUpdateParams)
  | retweet (p : StatusRetweetParams)
  | destroy (p : StatusDestroyParams)
deriving DecidableEq, Repr

/-- Encoding of a parameter object (`query.Values`). -/
def ParamStruct.encode : ParamStruct → Values
  | ParamStruct.show p => reflectValue p.fields
  | ParamStruct.lookup p => reflectValue p.fields
  | ParamStruct.update p => reflectValue p.fields
  | ParamStruct.retweet p => reflectValue p.fields
  | ParamStruct.destroy p => reflectValue p.fields

/-! ## The request builder (sling) -/

/-- The request a builder produces: verb, URL, the parameters added to the
query string, and the form body when there is one. -/
structure HttpRequest where
  method : String
  url : String
  query : Values
  body : Option Values
deriving DecidableEq, Repr

/-- State of a request builder: verb, URL so far, the objects to encode into
the query string and the object to encode into the body. Headers and the
credentials of the HTTP client play no part in this file and are left out. -/
structure Sling where
  method : String
  rawURL : String
  queryStructs : List ParamStruct
  bodyStruct : Option ParamStruct
deriving DecidableEq, Repr

/-- The part of a text up to and including its last slash. For a URL whose
last slash lies in its path this is what a relative reference is merged with;
`dirBase` below describes such URLs. -/
def dirOf (base : String) : String :=
  ⟨(base.data.reverse.dropWhile (fun c => c != '/')).reverse⟩

/-- The merge step of `url.ResolveReference` for a relative path reference: the
reference replaces what follows the last slash of the base. This is all that
resolution does when the base has a scheme, a host and a non-empty path of
plain segments, and no query or fragment, and the reference is a relative path
of plain segments. Every reference of this file is one; the bases are the ones
`dirBase` accepts, and every statement about a URL below is made for those
only. Outside that domain (a base without a path, dot segments, a query,
characters that are percent-escaped) resolution does more than this merge and
the function is not a model of it. -/
def resolveReference (base ref : String) : String :=
  dirOf base ++ ref

/-- The pieces of a text between its slashes, in order. -/
def splitSlash : List Char → List (List Char)
  | [] => [[]]
  | c :: cs =>
    match splitSlash cs with
    | [] => [[]]
    | seg :: rest => if c = '/' then [] :: seg :: rest else (c :: seg) :: rest

/-- Characters of a host name that are written as they are: letters, digits,
hyphen and dot. -/
def hostChar (c : Char) : Bool :=
  c.isAlphanum || c == '-' || c == '.'

/-- Characters of a path that are never percent-escaped: letters, digits,
hyphen, dot, underscore and tilde. -/
def plainChar (c : Char) : Bool :=
  c.isAlphanum || c == '-' || c == '.' || c == '_' || c == '~'

/-- A path segment that resolution keeps as it is: not empty, plain characters
only, and neither of the dot segments `.` and `..`. -/
def plainSegment (seg : List Char) : Bool :=
  !seg.isEmpty && seg.all plainChar && seg != ['.'] && seg != ['.', '.']

/-- A base URL with a directory path, the kind the builder asks for when the
URL is to be extended with `Path` (a base with a trailing slash): the scheme
`http` or `https`, a host, and a path of plain segments that ends in a slash,
as in `https://api.twitter.com/1.1/`. No query and no fragment can occur,
since `?` and `#` are not plain characters. -/
def dirBase (base : String) : Bool :=
  base.data.getLast? == some '/' &&
    match splitSlash base.data with
    | scheme :: [] :: host :: segs =>
      (scheme == "http:".data || scheme == "https:".data) &&
        !host.isEmpty && host.all hostChar && segs.dropLast.all plainSegment
    | _ => false

/-- A builder with a base URL and nothing else configured
(`sling.New().Base(rawURL)`): no query object and no body object. Its verb is
replaced by `Get` or `Post` before any request is built. -/
def Sling.Base (rawURL : String) : Sling :=
  ⟨"GET", rawURL, [], none⟩

/-- A copy of the builder (`New`): later changes do not reach the original. -/
def Sling.New (s : Sling) : Sling :=
  ⟨s.method, s.rawURL, s.queryStructs, s.bodyStruct⟩

/-- Extension of the URL by a path (`Path`). -/
def Sling.Path (s : Sling) (path : String) : Sling :=
  { s with rawURL := resolveReference s.rawURL path }

/-- Verb GET and path (`Get`). -/
def Sling.Get (s : Sling) (pathURL : String) : Sling :=
  Sling.Path { s with method := "GET" } pathURL

/-- Verb POST and path (`Post`). -/
def Sling.Post (s : Sling) (pathURL : String) : Sling :=
  Sling.Path { s with method := "POST" } pathURL

/-- One more object for the query string (`QueryStruct`). -/
def Sling.QueryStruct (s : Sling) (queryStruct : ParamStruct) : Sling :=
  { s with queryStructs := s.queryStructs ++ [queryStruct] }

/-- The object for the form body (`BodyStruct`). -/
def Sling.BodyStruct (s : Sling) (bodyStruct : ParamStruct) : Sling :=
  { s with bodyStruct := some bodyStruct }

/-- The request described by the builder (`Request`): every query object is
encoded and added to the query string, the body object is encoded into the
body. -/
def Sling.Request (s : Sling) : HttpRequest :=
  ⟨s.method, s.rawURL, (s.queryStructs.map ParamStruct.encode).flatten,
    s.bodyStruct.map ParamStruct.encode⟩

/-- The execute-and-decode step of the HTTP client: given the requests issued
so far, the request and the decode target, it gives the target after decoding,
the response and the error (`none` is the nil error). Any behaviour of network
and server is one such function. -/
structure Doer (R E : Type) where
  run : (τ : Type) → List HttpRequest → HttpRequest → τ → τ × R × Option E

/-- Execution (`Receive`): the request is built and handed to the client once;
the result is the client's answer and the history extended by this request. -/
def Sling.Receive {R E τ : Type} (s : Sling) (d : Doer R E) (hist : List HttpRequest)
    (target : τ) : (τ × R × Option E) × List HttpRequest :=
  (d.run τ hist s.Request target, hist ++ [s.Request])

/-! ## The status service -/

/-- Methods for the status endpoints: a request builder whose URL ends in the
resource segment. -/
structure StatusService where
  sling : Sling
deriving DecidableEq, Repr

/-- A new `StatusService` on top of a configured builder. -/
def NewStatusService (sling : Sling) : StatusService :=
  ⟨sling.Path "statuses/"⟩

/-- What a call leaves behind: the three Go results, the parameter object as it
stands when the call returns (the object the caller passed, when the caller
passed one), and the request history. -/
structure Outcome (τ P R E : Type) where
  value : τ
  resp : R
  err : Option E
  params : P
  hist : List HttpRequest

section Operations

variable (Tweet : Type) [Inhabited Tweet] {R E : Type}

/-- Show returns the requested Tweet. The type `Tweet` is a parameter (its
declaration uses types declared elsewhere in the package, and no operation
looks at its fields); the decode target `new(Tweet)` is its zero value
`default`. -/
def StatusService.Show (s : StatusService) (d : Doer R E) (hist : List HttpRequest)
    (id : Int) (params : Option StatusShowParams) :
    Outcome Tweet StatusShowParams R E :=
  let params : StatusShowParams := params.getD {}
  let params := { params with Id := id }
  let tweet : Tweet := default
  let r := (((s.sling.New).Get "show.json").QueryStruct (ParamStruct.show params)).Receive
    d hist tweet
  ⟨r.1.1, r.1.2.1, r.1.2.2, params, r.2⟩

/-- Lookup returns the requested Tweets as a slice. Combines ids from the
required ids argument and from `params.Id`. -/
def StatusService.Lookup (s : StatusService) (d : Doer R E) (hist : List HttpRequest)
    (ids : List Int) (params : Option StatusLookupParams) :
    Outcome (List Tweet) StatusLookupParams R E :=
  let params : StatusLookupParams := params.getD {}
  let params := { params with Id := params.Id ++ ids }
  let tweets : List Tweet := []
  let r := (((s.sling.New).Get "lookup.json").QueryStruct (ParamStruct.lookup params)).Receive
    d hist tweets
  ⟨r.1.1, r.1.2.1, r.1.2.2, params, r.2⟩

/-- Update updates the status of the user, also known as Tweeting. -/
def StatusService.Update (s : StatusService) (d : Doer R E) (hist : List HttpRequest)
    (status : String) (params : Option StatusUpdateParams) :
    Outcome Tweet StatusUpdateParams R E :=
  let params : StatusUpdateParams := params.getD {}
  let params := { params with Status := status }
  let tweet : Tweet := default
  let r := (((s.sling.New).Post "update.json").BodyStruct (ParamStruct.update params)).Receive
    d hist tweet
  ⟨r.1.1, r.1.2.1, r.1.2.2, params, r.2⟩

/-- Retweet retweets the Tweet with the given id and returns the original Tweet
with embedded retweet details. -/
def StatusService.Retweet (s : StatusService) (d : Doer R E) (hist : List HttpRequest)
    (id : Int) (params : Option StatusRetweetParams) :
    Outcome Tweet StatusRetweetParams R E :=
  let params : StatusRetweetParams := params.getD {}
  let params := { params with Id := id }
  let tweet : Tweet := default
  let path := "retweet/" ++ FormatInt params.Id ++ ".json"
  let r := (((s.sling.New).Post path).BodyStruct (ParamStruct.retweet params)).Receive
    d hist tweet
  ⟨r.1.1, r.1.2.1, r.1.2.2, params, r.2⟩

/-- Destroy deletes the Tweet with the given id and returns it if successful. -/
def StatusService.Destroy (s : StatusService) (d : Doer R E) (hist : List HttpRequest)
    (id : Int) (params : Option StatusDestroyParams) :
    Outcome Tweet StatusDestroyParams R E :=
  let params : StatusDestroyParams := params.getD {}
  let params := { params with Id := id }
  let tweet : Tweet := default
  let path := "destroy/" ++ FormatInt params.Id ++ ".json"
  let r := (((s.sling.New).Post path).BodyStruct (ParamStruct.destroy params)).Receive
    d hist tweet
  ⟨r.1.1, r.1.2.1, r.1.2.2, params, r.2⟩

end Operations

/-- A client that leaves the decode target as it is, answers with status 200
and reports no error. -/
def quietDoer : Doer Nat String :=
  ⟨fun _ _ _ target => (target, 200, none)⟩

/-- Reading of a decimal text, one character at a time: a flag that records a
minus sign, and the number the digits spell so far. -/
def readStep (acc : Bool × Nat) (c : Char) : Bool × Nat :=
  if c = '-' then (true, acc.2) else (acc.1, acc.2 * 10 + (c.toNat - 48))

/-! ## Decimal rendering is injective -/

theorem readStep_digitChar (acc : Bool × Nat) (d : Nat) (hd : d < 10) :
    readStep acc (Nat.digitChar d) = (acc.1, acc.2 * 10 + d) := by
  interval_cases d <;> simp [readStep, Nat.digitChar]

theorem foldl_readStep_toDigitsCore (fuel : Nat) :
    ∀ (n : Nat) (ds : List Char) (b : Bool), n < fuel →
      List.foldl readStep (b, 0) (Nat.toDigitsCore 10 fuel n ds)
        = List.foldl readStep (b, n) ds := by
  induction fuel with
  | zero => intro n ds b h; omega
  | succ fuel ih =>
    intro n ds b h
    have hd : n % 10 < 10 := Nat.mod_lt _ (by decide)
    simp only [Nat.toDigitsCore]
    split
    · rename_i h0
      have hn : n % 10 = n := by omega
      rw [List.foldl_cons, readStep_digitChar _ _ hd]
      simp [hn]
    · rename_i h0
      have hlt : n / 10 < fuel := by omega
      rw [ih (n / 10) _ b hlt]
      have hn : n / 10 * 10 + n % 10 = n := by omega
      rw [List.foldl_cons, readStep_digitChar _ _ hd]
      simp [hn]

theorem foldl_readStep_repr (n : Nat) (b : Bool) :
    List.foldl readStep (b, 0) (Nat.repr n).data = (b, n) := by
  simp [Nat.repr, Nat.toDigits, List.asString,
    foldl_readStep_toDigitsCore (n + 1) n [] b (by omega)]

theorem foldl_readStep_FormatInt (i : Int) :
    List.foldl readStep (false, 0) (FormatInt i).data = (decide (i < 0), i.natAbs) := by
  cases i with
  | ofNat m => simp [FormatInt, foldl_readStep_repr]
  | negSucc m =>
    simp [FormatInt, String.data_append, List.foldl_append, readStep, foldl_readStep_repr,
      Int.negSucc_lt_zero]

theorem FormatInt_injective : Function.Injective FormatInt := by
  intro a b h
  have ha := foldl_readStep_FormatInt a
  have hb := foldl_readStep_FormatInt b
  rw [h, hb] at ha
  simp only [Prod.mk.injEq, decide_eq_decide] at ha
  omega

theorem FormatInt_ne {a b : Int} (h : a ≠ b) : FormatInt a ≠ FormatInt b :=
  fun e => h (FormatInt_injective e)

/-! ## URL resolution -/

theorem dirOf_of_slash (l : List Char) : dirOf ⟨l ++ ['/']⟩ = ⟨l ++ ['/']⟩ := by
  simp [dirOf]

theorem dirOf_resolve_statuses (base : String) :
    dirOf (resolveReference base "statuses/") = resolveReference base "statuses/" := by
  have h : resolveReference base "statuses/"
      = ⟨((dirOf base).data ++ "statuses".data) ++ ['/']⟩ := by
    apply String.ext
    simp [resolveReference, String.data_append]
  rw [h, dirOf_of_slash]

theorem resolve_in_service (base ref : String) :
    resolveReference (resolveReference base "statuses/") ref
      = resolveReference base "statuses/" ++ ref := by
  show dirOf (resolveReference base "statuses/") ++ ref = _
  rw [dirOf_resolve_statuses]

theorem dirOf_of_dirBase {base : String} (hb : dirBase base = true) : dirOf base = base := by
  have h1 : base.data.getLast? = some '/' := by
    simp only [dirBase, Bool.and_eq_true, beq_iff_eq] at hb
    exact hb.1
  obtain ⟨l, hl⟩ := List.getLast?_eq_some_iff.mp h1
  have hbase : base = ⟨l ++ ['/']⟩ := String.ext hl
  rw [hbase, dirOf_of_slash]

theorem resolve_of_dirBase {base : String} (hb : dirBase base = true) (ref : String) :
    resolveReference base ref = base ++ ref := by
  simp [resolveReference, dirOf_of_dirBase hb]

theorem append_cancel_left {a b c : String} (h : a ++ b = a ++ c) : b = c := by
  apply String.ext
  have := congrArg String.data h
  simpa [String.data_append] using this

/-! ## Encoding of the tagged fields -/

theorem encodeField_int64 (k : String) (v : Int) :
    encodeField ⟨k, true, false, GoValue.int64 v⟩ = if v = 0 then [] else [(k, FormatInt v)] := by
  by_cases h : v = 0 <;> simp [encodeField, isEmptyValue, valueString, h]

theorem encodeField_string (k s : String) :
    encodeField ⟨k, true, false, GoValue.string s⟩ = if s = "" then [] else [(k, s)] := by
  have hs : s.length = 0 ↔ s = "" := by
    constructor
    · intro h
      apply String.ext
      exact List.length_eq_zero.mp h
    · intro h
      subst h
      rfl
  by_cases h : s = ""
  · simp [encodeField, isEmptyValue, h]
  · have h2 : ¬ s.length = 0 := fun e => h (hs.mp e)
    simp [encodeField, isEmptyValue, valueString, h, h2]

theorem encodeField_boolPtr (k : String) (p : Option Bool) :
    encodeField ⟨k, true, false, GoValue.boolPtr p⟩
      = (p.map (fun b => (k, FormatBool b))).toList := by
  cases p <;> simp [encodeField, isEmptyValue, valueString]

theorem encodeField_float64Ptr (k : String) (p : Option Float64) :
    encodeField ⟨k, true, false, GoValue.float64Ptr p⟩
      = (p.map (fun f => (k, f.text))).toList := by
  cases p <;> simp [encodeField, isEmptyValue, valueString]

theorem encodeField_int64Slice (k : String) (l : List Int) :
    encodeField ⟨k, true, true, GoValue.int64Slice l⟩
      = if l = [] then [] else [(k, ",".intercalate (l.map FormatInt))] := by
  cases l <;> simp [encodeField, isEmptyValue]

theorem getAll_nil (k : String) : Values.getAll [] k = [] := rfl

theorem getAll_append (a b : Values) (k : String) :
    Values.getAll (a ++ b) k = Values.getAll a k ++ Values.getAll b k := by
  simp [Values.getAll]

theorem getAll_cons (k0 v : String) (t : Values) (k : String) :
    Values.getAll ((k0, v) :: t) k
      = if k0 = k then v :: Values.getAll t k else Values.getAll t k := by
  by_cases h : k0 = k <;> simp [Values.getAll, List.filter_cons, h]

theorem getAll_ite (c : Prop) [Decidable c] (a : Values) (k : String) :
    Values.getAll (if c then [] else a) k = if c then [] else Values.getAll a k := by
  by_cases h : c <;> simp [h, getAll_nil]

theorem getAll_option {α : Type} (p : Option α) (k0 : String) (f : α → String) (k : String) :
    Values.getAll (p.map (fun b => (k0, f b))).toList k
      = if k0 = k then (p.map f).toList else [] := by
  cases p <;> by_cases h : k0 = k <;> simp [Values.getAll, List.filter_cons, h]

theorem reflectValue_show (p : StatusShowParams) :
    reflectValue p.fields
      = (if p.Id = 0 then [] else [("id", FormatInt p.Id)])
        ++ (p.TrimUser.map (fun b => ("trim_user", FormatBool b))).toList
        ++ (p.IncludeMyRetweet.map (fun b => ("include_my_retweet", FormatBool b))).toList
        ++ (p.IncludeEntities.map (fun b => ("include_entities", FormatBool b))).toList := by
  simp [reflectValue, StatusShowParams.fields, encodeField_int64, encodeField_boolPtr]

theorem reflectValue_lookup (p : StatusLookupParams) :
    reflectValue p.fields
      = (if p.Id = [] then [] else [("id", ",".intercalate (p.Id.map FormatInt))])
        ++ (p.TrimUser.map (fun b => ("trim_user", FormatBool b))).toList
        ++ (p.IncludeEntities.map (fun b => ("include_entities", FormatBool b))).toList
        ++ (p.Map.map (fun b => ("map", FormatBool b))).toList := by
  simp [reflectValue, StatusLookupParams.fields, encodeField_int64Slice, encodeField_boolPtr]

theorem reflectValue_update (p : StatusUpdateParams) :
    reflectValue p.fields
      = (if p.Status = "" then [] else [("status", p.Status)])
        ++ (if p.InReplyToStatusId = 0 then []
            else [("in_reply_to_status_id", FormatInt p.InReplyToStatusId)])
        ++ (p.PossiblySensitive.map (fun b => ("possibly_sensitive", FormatBool b))).toList
        ++ (p.Lat.map (fun f => ("lat", f.text))).toList
        ++ (p.Long.map (fun f => ("long", f.text))).toList
        ++ (if p.PlaceId = "" then [] else [("place_id", p.PlaceId)])
        ++ (p.DisplayCoordinates.map (fun b => ("display_coordinates", FormatBool b))).toList
        ++ (p.TrimUser.map (fun b => ("trim_user", FormatBool b))).toList
        ++ (if p.MediaIds = [] then []
            else [("media_ids", ",".intercalate (p.MediaIds.map FormatInt))]) := by
  simp [reflectValue, StatusUpdateParams.fields, encodeField_int64, encodeField_boolPtr,
    encodeField_string, encodeField_float64Ptr, encodeField_int64Slice]

theorem reflectValue_retweet (p : StatusRetweetParams) :
    reflectValue p.fields
      = (if p.Id = 0 then [] else [("id", FormatInt p.Id)])
        ++ (p.TrimUser.map (fun b => ("trim_user", FormatBool b))).toList := by
  simp [reflectValue, StatusRetweetParams.fields, encodeField_int64, encodeField_boolPtr]

theorem reflectValue_destroy (p : StatusDestroyParams) :
    reflectValue p.fields
      = (if p.Id = 0 then [] else [("id", FormatInt p.Id)])
        ++ (p.TrimUser.map (fun b => ("trim_user", FormatBool b))).toList := by
  simp [reflectValue, StatusDestroyParams.fields, encodeField_int64, encodeField_boolPtr]

/-! ## The request each operation issues -/

theorem Show_hist (Tweet : Type) [Inhabited Tweet] {R E : Type} (s : StatusService) (d : Doer R E) (hist : List HttpRequest) (id : Int)
    (params : Option StatusShowParams) :
    (s.Show Tweet d hist id params).hist = hist ++
      [⟨"GET", resolveReference s.sling.rawURL "show.json",
        (s.sling.queryStructs.map ParamStruct.encode).flatten
          ++ reflectValue ({ params.getD {} with Id := id } : StatusShowParams).fields,
        s.sling.bodyStruct.map ParamStruct.encode⟩] := by
  simp [StatusService.Show, Sling.Receive, Sling.Request, Sling.QueryStruct, Sling.Get,
    Sling.Path, Sling.New, ParamStruct.encode]

theorem Lookup_hist (Tweet : Type) {R E : Type} (s : StatusService) (d : Doer R E) (hist : List HttpRequest)
    (ids : List Int) (params : Option StatusLookupParams) :
    (s.Lookup Tweet d hist ids params).hist = hist ++
      [⟨"GET", resolveReference s.sling.rawURL "lookup.json",
        (s.sling.queryStructs.map ParamStruct.encode).flatten
          ++ reflectValue
            ({ params.getD {} with Id := (params.getD {}).Id ++ ids } : StatusLookupParams).fields,
        s.sling.bodyStruct.map ParamStruct.encode⟩] := by
  simp [StatusService.Lookup, Sling.Receive, Sling.Request, Sling.QueryStruct, Sling.Get,
    Sling.Path, Sling.New, ParamStruct.encode]

theorem Update_hist (Tweet : Type) [Inhabited Tweet] {R E : Type} (s : StatusService) (d : Doer R E) (hist : List HttpRequest)
    (status : String) (params : Option StatusUpdateParams) :
    (s.Update Tweet d hist status params).hist = hist ++
      [⟨"POST", resolveReference s.sling.rawURL "update.json",
        (s.sling.queryStructs.map ParamStruct.encode).flatten,
        some (reflectValue
          ({ params.getD {} with Status := status } : StatusUpdateParams).fields)⟩] := by
  simp [StatusService.Update, Sling.Receive, Sling.Request, Sling.BodyStruct, Sling.Post,
    Sling.Path, Sling.New, ParamStruct.encode]

theorem Retweet_hist (Tweet : Type) [Inhabited Tweet] {R E : Type} (s : StatusService) (d : Doer R E) (hist : List HttpRequest)
    (id : Int) (params : Option StatusRetweetParams) :
    (s.Retweet Tweet d hist id params).hist = hist ++
      [⟨"POST", resolveReference s.sling.rawURL ("retweet/" ++ FormatInt id ++ ".json"),
        (s.sling.queryStructs.map ParamStruct.encode).flatten,
        some (reflectValue
          ({ params.getD {} with Id := id } : StatusRetweetParams).fields)⟩] := by
  simp [StatusService.Retweet, Sling.Receive, Sling.Request, Sling.BodyStruct, Sling.Post,
    Sling.Path, Sling.New, ParamStruct.encode]

theorem Destroy_hist (Tweet : Type) [Inhabited Tweet] {R E : Type} (s : StatusService) (d : Doer R E) (hist : List HttpRequest)
    (id : Int) (params : Option StatusDestroyParams) :
    (s.Destroy Tweet d hist id params).hist = hist ++
      [⟨"POST", resolveReference s.sling.rawURL ("destroy/" ++ FormatInt id ++ ".json"),
        (s.sling.queryStructs.map ParamStruct.encode).flatten,
        some (reflectValue
          ({ params.getD {} with Id := id } : StatusDestroyParams).fields)⟩] := by
  simp [StatusService.Destroy, Sling.Receive, Sling.Request, Sling.BodyStruct, Sling.Post,
    Sling.Path, Sling.New, ParamStruct.encode]

theorem service_sling (base : String) :
    (NewStatusService (Sling.Base base)).sling
      = ⟨"GET", resolveReference base "statuses/", [], none⟩ := rfl

theorem keys_count (v : Values) (k : String) :
    (Values.keys v).count k = (Values.getAll v k).length := by
  induction v with
  | nil => rfl
  | cons kv t ih =>
    obtain ⟨k0, v0⟩ := kv
    have ih2 : List.count k (List.map Prod.fst t) = (Values.getAll t k).length := ih
    by_cases h : k0 = k
    · simp [Values.keys, getAll_cons, h, ih2]
    · simp [Values.keys, getAll_cons, h, ih2, List.count_cons]

theorem getAll_show_id (p : StatusShowParams) :
    Values.getAll (reflectValue p.fields) "id"
      = if p.Id = 0 then [] else [FormatInt p.Id] := by
  by_cases h : p.Id = 0 <;>
    simp [reflectValue_show, getAll_append, getAll_cons, getAll_option, getAll_nil, h]

theorem getAll_lookup_id (p : StatusLookupParams) :
    Values.getAll (reflectValue p.fields) "id"
      = if p.Id = [] then [] else [",".intercalate (p.Id.map FormatInt)] := by
  by_cases h : p.Id = [] <;>
    simp [reflectValue_lookup, getAll_append, getAll_cons, getAll_option, getAll_nil, h]

theorem getAll_update_status (p : StatusUpdateParams) :
    Values.getAll (reflectValue p.fields) "status"
      = if p.Status = "" then [] else [p.Status] := by
  by_cases h : p.Status = "" <;>
    simp [reflectValue_update, getAll_append, getAll_cons, getAll_option, getAll_nil,
      getAll_ite, h]

theorem getAll_retweet_id (p : StatusRetweetParams) :
    Values.getAll (reflectValue p.fields) "id"
      = if p.Id = 0 then [] else [FormatInt p.Id] := by
  by_cases h : p.Id = 0 <;>
    simp [reflectValue_retweet, getAll_append, getAll_cons, getAll_option, getAll_nil, h]

theorem getAll_destroy_id (p : StatusDestroyParams) :
    Values.getAll (reflectValue p.fields) "id"
      = if p.Id = 0 then [] else [FormatInt p.Id] := by
  by_cases h : p.Id = 0 <;>
    simp [reflectValue_destroy, getAll_append, getAll_cons, getAll_option, getAll_nil, h]

theorem append_cancel_right {a b c : String} (h : a ++ c = b ++ c) : a = b := by
  apply String.ext
  have := congrArg String.data h
  simpa [String.data_append] using this

theorem service_rawURL (b : Sling) :
    (NewStatusService b).sling.rawURL = resolveReference b.rawURL "statuses/" := rfl

theorem path_ne_of_id_ne (x pre post : String) {a b : Int} (h : a ≠ b) :
    x ++ (pre ++ FormatInt b ++ post) ≠ x ++ (pre ++ FormatInt a ++ post) := by
  intro e
  have e1 := append_cancel_left e
  have e2 : pre ++ (FormatInt b ++ post) = pre ++ (FormatInt a ++ post) := by
    simpa [String.append_assoc] using e1
  exact h (FormatInt_injective (append_cancel_right (append_cancel_left e2))).symm

/-! ## The claims -/

/-- C1 (counterexample): `Show(0, nil)` emits a request whose query string is
empty, so it has no `id` parameter at all, although the claim promises one with
value `0`. -/
theorem Show_zero_has_no_id_parameter :
    ((NewStatusService (Sling.Base "https://api.twitter.com/1.1/")).Show Unit quietDoer [] 0
        none).hist
      = [⟨"GET", "https://api.twitter.com/1.1/statuses/show.json", [], none⟩] := by
  decide

/-- C1 (amended): on a service whose builder carries a base URL only, for every
id and every params value (absent or present, with any pre-set `params.Id`),
`Show(id, params)` issues one request; for id different from 0 its query string
has exactly one `id` parameter, the decimal form of the id argument, and for
id 0 it has none (the field is tagged `omitempty`). In both cases no other id
is emitted: the decimal form of an integer other than the argument, such as a
different pre-set `params.Id`, is not among the `id` values. -/
theorem Show_id_parameter (Tweet : Type) [Inhabited Tweet] {R E : Type} (base : String)
    (d : Doer R E) (hist : List HttpRequest) (id : Int) (params : Option StatusShowParams) :
    ∃ r : HttpRequest,
      ((NewStatusService (Sling.Base base)).Show Tweet d hist id params).hist = hist ++ [r] ∧
      r.query.getAll "id" = (if id = 0 then [] else [FormatInt id]) ∧
      ∀ old : Int, old ≠ id → FormatInt old ∉ r.query.getAll "id" := by
  refine ⟨_, Show_hist Tweet _ d hist id params, ?_, ?_⟩
  · simp [service_sling, getAll_show_id]
  · intro old hold
    have hne := FormatInt_ne hold
    by_cases h : id = 0 <;> simp [service_sling, getAll_show_id, h]
    simpa [h] using hne

/-- C2: on a service whose builder carries a base URL only, for every list
held in `params.Id` (empty when params is absent) and every list `ids`,
`Lookup(ids, params)` issues one request whose `id` query parameter reads as
the comma-joined decimal rendering of `params.Id ++ ids`: params-supplied ids
first, then the argument ids, order and duplicates kept. The parameter occurs
once when the combined list is non-empty and is left out when it is empty
(its value then reads as the empty string). With `params.Id = [7,8]` and
`ids = [1,2]` the query string is exactly `id=7,8,1,2`. -/
theorem Lookup_id_parameter (Tweet : Type) {R E : Type} (base : String)
    (d : Doer R E) (hist : List HttpRequest) (ids : List Int)
    (params : Option StatusLookupParams) :
    (∃ r : HttpRequest,
      ((NewStatusService (Sling.Base base)).Lookup Tweet d hist ids params).hist
        = hist ++ [r] ∧
      r.query.Get "id" = ",".intercalate (((params.getD {}).Id ++ ids).map FormatInt) ∧
      r.query.getAll "id" = (if (params.getD {}).Id ++ ids = [] then []
        else [",".intercalate (((params.getD {}).Id ++ ids).map FormatInt)])) ∧
    ((NewStatusService (Sling.Base "https://api.twitter.com/1.1/")).Lookup Tweet d hist [1, 2]
        (some { Id := [7, 8] })).hist
      = hist ++ [⟨"GET", "https://api.twitter.com/1.1/statuses/lookup.json",
          [("id", "7,8,1,2")], none⟩] := by
  refine ⟨⟨_, Lookup_hist Tweet _ d hist ids params, ?_, ?_⟩, ?_⟩
  · by_cases h : (params.getD {}).Id ++ ids = []
    · simp only [service_sling, Values.Get, List.map_nil, List.flatten_nil, List.nil_append,
        getAll_lookup_id, h, if_true]
      rfl
    · simp only [service_sling, Values.Get, List.map_nil, List.flatten_nil, List.nil_append,
        getAll_lookup_id, h, if_false]
      rfl
  · simp [service_sling, getAll_lookup_id]
  · rw [Lookup_hist]
    rfl

/-- C3: for every call of `Update(status, params)`, `Retweet(id, params)` and
`Destroy(id, params)`, on any service and with params absent or present, the
parameter object after the call is the caller's object (the empty object when
params is absent) with the explicit argument written into the same-named field
and every other field as the caller set it; the body of the one request issued
is the encoding of exactly that object, that is the encoding of the explicit
argument under its key followed by the encoding of the caller's remaining
fields. -/
theorem explicit_argument_overrides (Tweet : Type) [Inhabited Tweet] {R E : Type}
    (s : StatusService) (d : Doer R E) (hist : List HttpRequest) (status : String) (id : Int)
    (pu : Option StatusUpdateParams) (pr : Option StatusRetweetParams)
    (pd : Option StatusDestroyParams) :
    (∃ r : HttpRequest, (s.Update Tweet d hist status pu).hist = hist ++ [r] ∧
      (s.Update Tweet d hist status pu).params = { pu.getD {} with Status := status } ∧
      r.body = some (reflectValue (s.Update Tweet d hist status pu).params.fields) ∧
      r.body = some (encodeField ⟨"status", true, false, GoValue.string status⟩
        ++ reflectValue (pu.getD {}).fields.tail)) ∧
    (∃ r : HttpRequest, (s.Retweet Tweet d hist id pr).hist = hist ++ [r] ∧
      (s.Retweet Tweet d hist id pr).params = { pr.getD {} with Id := id } ∧
      r.body = some (reflectValue (s.Retweet Tweet d hist id pr).params.fields) ∧
      r.body = some (encodeField ⟨"id", true, false, GoValue.int64 id⟩
        ++ reflectValue (pr.getD {}).fields.tail)) ∧
    (∃ r : HttpRequest, (s.Destroy Tweet d hist id pd).hist = hist ++ [r] ∧
      (s.Destroy Tweet d hist id pd).params = { pd.getD {} with Id := id } ∧
      r.body = some (reflectValue (s.Destroy Tweet d hist id pd).params.fields) ∧
      r.body = some (encodeField ⟨"id", true, false, GoValue.int64 id⟩
        ++ reflectValue (pd.getD {}).fields.tail)) := by
  refine ⟨⟨_, Update_hist Tweet s d hist status pu, rfl, rfl, rfl⟩,
    ⟨_, Retweet_hist Tweet s d hist id pr, rfl, rfl, rfl⟩,
    ⟨_, Destroy_hist Tweet s d hist id pd, rfl, rfl, rfl⟩⟩

/-- C5: for every integer id (so for every 64-bit id, zero and negative ones
included) and every params value, on a service built by `NewStatusService`
over any builder whose base URL has a directory path, the URL of the service
is the base URL followed by `statuses/`, and `Retweet(id, params)` issues one
request, a POST whose URL is the service URL followed by exactly `retweet/`,
the decimal rendering of id and `.json`; `Destroy(id, params)` likewise with
`destroy/`. The id in the path is the argument: the path is not the one of any
other integer, such as a different pre-set `params.Id`. `Retweet(12345, nil)`
on the base URL `https://api.twitter.com/1.1/` posts to
`statuses/retweet/12345.json` under that base. -/
theorem Retweet_Destroy_path (Tweet : Type) [Inhabited Tweet] {R E : Type} (b : Sling)
    (d : Doer R E) (hist : List HttpRequest) (id : Int) (pr : Option StatusRetweetParams)
    (pd : Option StatusDestroyParams) (hb : dirBase b.rawURL = true) :
    (NewStatusService b).sling.rawURL = b.rawURL ++ "statuses/" ∧
    (∃ r : HttpRequest, ((NewStatusService b).Retweet Tweet d hist id pr).hist = hist ++ [r] ∧
      r.method = "POST" ∧
      r.url = b.rawURL ++ "statuses/" ++ ("retweet/" ++ FormatInt id ++ ".json") ∧
      ∀ old : Int, old ≠ id →
        r.url ≠ b.rawURL ++ "statuses/" ++ ("retweet/" ++ FormatInt old ++ ".json")) ∧
    (∃ r : HttpRequest, ((NewStatusService b).Destroy Tweet d hist id pd).hist = hist ++ [r] ∧
      r.method = "POST" ∧
      r.url = b.rawURL ++ "statuses/" ++ ("destroy/" ++ FormatInt id ++ ".json") ∧
      ∀ old : Int, old ≠ id →
        r.url ≠ b.rawURL ++ "statuses/" ++ ("destroy/" ++ FormatInt old ++ ".json")) ∧
    (∃ r : HttpRequest,
      ((NewStatusService (Sling.Base "https://api.twitter.com/1.1/")).Retweet Tweet d hist 12345
        none).hist = hist ++ [r] ∧
      r.method = "POST" ∧
      r.url = "https://api.twitter.com/1.1/" ++ "statuses/retweet/12345.json") := by
  have hs : (NewStatusService b).sling.rawURL = b.rawURL ++ "statuses/" := by
    rw [service_rawURL, resolve_of_dirBase hb]
  have hr : ∀ ref : String,
      resolveReference (NewStatusService b).sling.rawURL ref = b.rawURL ++ "statuses/" ++ ref := by
    intro ref
    rw [service_rawURL, resolve_in_service, resolve_of_dirBase hb]
  refine ⟨hs, ⟨_, Retweet_hist Tweet _ d hist id pr, rfl, hr _, ?_⟩,
    ⟨_, Destroy_hist Tweet _ d hist id pd, rfl, hr _, ?_⟩,
    ⟨_, Retweet_hist Tweet _ d hist 12345 none, rfl, by decide⟩⟩
  · intro old hold
    show resolveReference (NewStatusService b).sling.rawURL _ ≠ _
    rw [hr]
    exact path_ne_of_id_ne _ _ _ hold
  · intro old hold
    show resolveReference (NewStatusService b).sling.rawURL _ ≠ _
    rw [hr]
    exact path_ne_of_id_ne _ _ _ hold

/-- C5 (witness): the base URL `https://api.twitter.com/1.1/` has a directory
path, and there `Retweet(-7, params)` with a pre-set `params.Id = 3` posts to
`https://api.twitter.com/1.1/statuses/retweet/` followed by `-7.json`. -/
theorem Retweet_Destroy_path_witness :
    dirBase "https://api.twitter.com/1.1/" = true ∧
    ∃ r : HttpRequest,
      ((NewStatusService (Sling.Base "https://api.twitter.com/1.1/")).Retweet Unit quietDoer [] (-7)
        (some { Id := 3 })).hist = [] ++ [r] ∧
      r.method = "POST" ∧
      r.url = "https://api.twitter.com/1.1/" ++ "statuses/" ++ ("retweet/" ++ FormatInt (-7) ++ ".json") ∧
      ∀ old : Int, old ≠ -7 →
        r.url ≠ "https://api.twitter.com/1.1/" ++ "statuses/" ++ ("retweet/" ++ FormatInt old ++ ".json") :=
  ⟨by decide,
    (Retweet_Destroy_path Unit (Sling.Base "https://api.twitter.com/1.1/") quietDoer [] (-7) (some { Id := 3 }) none
      (by decide)).2.1⟩

/-- C6 (counterexample): the request of `Retweet(12345, nil)` has the id in its
path and also in its body, as the field `id=12345`, although the claim says the
id is carried in the path only. -/
theorem Retweet_body_carries_id :
    ((NewStatusService (Sling.Base "https://api.twitter.com/1.1/")).Retweet Unit quietDoer []
        12345 none).hist
      = [⟨"POST", "https://api.twitter.com/1.1/statuses/retweet/12345.json", [],
          some [("id", "12345")]⟩] := by
  decide

/-- C6 (amended): on a service whose builder carries only a base URL with a
directory path, for every id the request of `Retweet(id, params)` (and likewise
`Destroy`) carries the id in its path, `retweet/<id>.json` (`destroy/<id>.json`)
under the base URL followed by `statuses/`, and adds nothing to the query
string; the body carries the id as well, as its one `id` field with the
decimal rendering of the id, whenever the id is not 0, and has no `id` field
when the id is 0. -/
theorem Retweet_Destroy_id_placement (Tweet : Type) [Inhabited Tweet] {R E : Type}
    (base : String) (d : Doer R E) (hist : List HttpRequest) (id : Int)
    (pr : Option StatusRetweetParams) (pd : Option StatusDestroyParams)
    (hb : dirBase base = true) :
    (∃ r : HttpRequest,
      ((NewStatusService (Sling.Base base)).Retweet Tweet d hist id pr).hist = hist ++ [r] ∧
      r.url = base ++ "statuses/" ++ ("retweet/" ++ FormatInt id ++ ".json") ∧
      r.query = [] ∧
      (r.body.getD []).getAll "id" = (if id = 0 then [] else [FormatInt id])) ∧
    (∃ r : HttpRequest,
      ((NewStatusService (Sling.Base base)).Destroy Tweet d hist id pd).hist = hist ++ [r] ∧
      r.url = base ++ "statuses/" ++ ("destroy/" ++ FormatInt id ++ ".json") ∧
      r.query = [] ∧
      (r.body.getD []).getAll "id" = (if id = 0 then [] else [FormatInt id])) := by
  have hr : ∀ ref : String,
      resolveReference (resolveReference base "statuses/") ref = base ++ "statuses/" ++ ref := by
    intro ref
    rw [resolve_in_service, resolve_of_dirBase hb]
  refine ⟨⟨_, Retweet_hist Tweet _ d hist id pr, ?_, rfl, ?_⟩,
    ⟨_, Destroy_hist Tweet _ d hist id pd, ?_, rfl, ?_⟩⟩
  · simp only [service_sling, hr]
  · simp [getAll_retweet_id]
  · simp only [service_sling, hr]
  · simp [getAll_destroy_id]

/-- C6 (witness): the base URL `https://api.twitter.com/1.1/` has a directory
path, and there `Destroy(5, nil)` posts to
`https://api.twitter.com/1.1/statuses/destroy/5.json` with an empty query
string and the body field `id=5`. -/
theorem Retweet_Destroy_id_placement_witness :
    dirBase "https://api.twitter.com/1.1/" = true ∧
    ∃ r : HttpRequest,
      ((NewStatusService (Sling.Base "https://api.twitter.com/1.1/")).Destroy Unit quietDoer [] 5 none).hist
        = [] ++ [r] ∧
      r.url = "https://api.twitter.com/1.1/" ++ "statuses/" ++ ("destroy/" ++ FormatInt 5 ++ ".json") ∧
      r.query = [] ∧
      (r.body.getD []).getAll "id" = (if (5 : Int) = 0 then [] else [FormatInt 5]) :=
  ⟨by decide,
    (Retweet_Destroy_id_placement Unit "https://api.twitter.com/1.1/" quietDoer [] 5 none none (by decide)).2⟩

/-- C7 (counterexample): after `Lookup([1,2], params)` with `params.Id = [7,8]`
the caller's `params.Id` is `[7,8,1,2]`, not the `[7,8]` it held before the
call. -/
theorem Lookup_changes_caller_params :
    ((NewStatusService (Sling.Base "https://api.twitter.com/1.1/")).Lookup Unit quietDoer []
        [1, 2] (some { Id := [7, 8] })).params.Id = [7, 8, 1, 2] ∧
    ((NewStatusService (Sling.Base "https://api.twitter.com/1.1/")).Lookup Unit quietDoer []
        [1, 2] (some { Id := [7, 8] })).params.Id ≠ [7, 8] := by
  decide

/-- C7 (amended): Lookup combines `params.Id` and the ids argument inside the
parameter object of the caller: for every non-nil params and every ids, after
`Lookup(ids, params)` returns `params.Id` is the former `params.Id` followed by
ids and every other field is unchanged; so two successive Lookup calls that
reuse the same params object issue two requests whose `id` parameters read as
`p ++ ids1` and then `p ++ ids1 ++ ids2`. -/
theorem Lookup_appends_in_place (Tweet : Type) {R E : Type} (base : String)
    (d : Doer R E) (hist : List HttpRequest) (ids1 ids2 : List Int)
    (p : StatusLookupParams) :
    ((NewStatusService (Sling.Base base)).Lookup Tweet d hist ids1 (some p)).params
      = { p with Id := p.Id ++ ids1 } ∧
    ∃ r1 r2 : HttpRequest,
      ((NewStatusService (Sling.Base base)).Lookup Tweet d
        ((NewStatusService (Sling.Base base)).Lookup Tweet d hist ids1 (some p)).hist ids2
        (some ((NewStatusService (Sling.Base base)).Lookup Tweet d hist ids1
          (some p)).params)).hist = hist ++ [r1, r2] ∧
      r1.query.Get "id" = ",".intercalate ((p.Id ++ ids1).map FormatInt) ∧
      r2.query.Get "id" = ",".intercalate ((p.Id ++ ids1 ++ ids2).map FormatInt) := by
  have key : ∀ q : StatusLookupParams,
      Values.Get (reflectValue q.fields) "id" = ",".intercalate (q.Id.map FormatInt) := by
    intro q
    by_cases h : q.Id = []
    · simp only [Values.Get, getAll_lookup_id, h, if_true]
      rfl
    · simp only [Values.Get, getAll_lookup_id, h, if_false]
      rfl
  refine ⟨rfl,
    ⟨"GET", resolveReference (resolveReference base "statuses/") "lookup.json",
      reflectValue ({ p with Id := p.Id ++ ids1 } : StatusLookupParams).fields, none⟩,
    ⟨"GET", resolveReference (resolveReference base "statuses/") "lookup.json",
      reflectValue ({ p with Id := p.Id ++ ids1 ++ ids2 } : StatusLookupParams).fields, none⟩,
    ?_, key _, key _⟩
  rw [Lookup_hist, Lookup_hist, List.append_assoc]
  rfl

/-- C8: for each of the five operations, on any service, the operation hands
one request to the client (the history grows by exactly that request, so there
is no second attempt) and returns exactly what the client answers for it on
the zero-valued decode target: the decoded target, the response and the error,
unchanged; in particular the returned error is non-nil if and only if the
error of the client is non-nil. -/
theorem results_pass_through (Tweet : Type) [Inhabited Tweet] {R E : Type}
    (s : StatusService) (d : Doer R E) (hist : List HttpRequest) (id : Int) (ids : List Int)
    (status : String) (ps : Option StatusShowParams) (pl : Option StatusLookupParams)
    (pu : Option StatusUpdateParams) (pr : Option StatusRetweetParams)
    (pd : Option StatusDestroyParams) :
    (∃ r : HttpRequest, (s.Show Tweet d hist id ps).hist = hist ++ [r] ∧
      ((s.Show Tweet d hist id ps).value, (s.Show Tweet d hist id ps).resp,
        (s.Show Tweet d hist id ps).err) = d.run Tweet hist r default ∧
      ((s.Show Tweet d hist id ps).err ≠ none ↔ (d.run Tweet hist r default).2.2 ≠ none)) ∧
    (∃ r : HttpRequest, (s.Lookup Tweet d hist ids pl).hist = hist ++ [r] ∧
      ((s.Lookup Tweet d hist ids pl).value, (s.Lookup Tweet d hist ids pl).resp,
        (s.Lookup Tweet d hist ids pl).err) = d.run (List Tweet) hist r [] ∧
      ((s.Lookup Tweet d hist ids pl).err ≠ none ↔
        (d.run (List Tweet) hist r []).2.2 ≠ none)) ∧
    (∃ r : HttpRequest, (s.Update Tweet d hist status pu).hist = hist ++ [r] ∧
      ((s.Update Tweet d hist status pu).value, (s.Update Tweet d hist status pu).resp,
        (s.Update Tweet d hist status pu).err) = d.run Tweet hist r default ∧
      ((s.Update Tweet d hist status pu).err ≠ none ↔
        (d.run Tweet hist r default).2.2 ≠ none)) ∧
    (∃ r : HttpRequest, (s.Retweet Tweet d hist id pr).hist = hist ++ [r] ∧
      ((s.Retweet Tweet d hist id pr).value, (s.Retweet Tweet d hist id pr).resp,
        (s.Retweet Tweet d hist id pr).err) = d.run Tweet hist r default ∧
      ((s.Retweet Tweet d hist id pr).err ≠ none ↔
        (d.run Tweet hist r default).2.2 ≠ none)) ∧
    (∃ r : HttpRequest, (s.Destroy Tweet d hist id pd).hist = hist ++ [r] ∧
      ((s.Destroy Tweet d hist id pd).value, (s.Destroy Tweet d hist id pd).resp,
        (s.Destroy Tweet d hist id pd).err) = d.run Tweet hist r default ∧
      ((s.Destroy Tweet d hist id pd).err ≠ none ↔
        (d.run Tweet hist r default).2.2 ≠ none)) := by
  exact ⟨⟨_, rfl, rfl, Iff.rfl⟩, ⟨_, rfl, rfl, Iff.rfl⟩, ⟨_, rfl, rfl, Iff.rfl⟩,
    ⟨_, rfl, rfl, Iff.rfl⟩, ⟨_, rfl, rfl, Iff.rfl⟩⟩

/-- C9: on a service whose builder carries only a base URL with a directory
path, the URL of the service is the base URL extended by `statuses/`, and each
operation issues one request with the verb, path and parameter placement of
its table row. Show is a GET to `show.json` and Lookup a GET to `lookup.json`,
the query string holding the encoding of the parameter object and the body
absent; Update is a POST to `update.json`, Retweet a POST to
`retweet/<id>.json` and Destroy a POST to `destroy/<id>.json`, the body holding
the encoding of the parameter object and the query string empty. Every path
follows the base URL extended by `statuses/`. -/
theorem verb_path_placement (Tweet : Type) [Inhabited Tweet] {R E : Type} (base : String)
    (d : Doer R E) (hist : List HttpRequest) (id : Int) (ids : List Int) (status : String)
    (ps : Option StatusShowParams) (pl : Option StatusLookupParams)
    (pu : Option StatusUpdateParams) (pr : Option StatusRetweetParams)
    (pd : Option StatusDestroyParams) (hb : dirBase base = true) :
    (NewStatusService (Sling.Base base)).sling.rawURL = base ++ "statuses/" ∧
    ((NewStatusService (Sling.Base base)).Show Tweet d hist id ps).hist = hist ++
      [⟨"GET", base ++ "statuses/" ++ "show.json",
        reflectValue ((NewStatusService (Sling.Base base)).Show Tweet d hist id ps).params.fields, none⟩] ∧
    ((NewStatusService (Sling.Base base)).Lookup Tweet d hist ids pl).hist = hist ++
      [⟨"GET", base ++ "statuses/" ++ "lookup.json",
        reflectValue ((NewStatusService (Sling.Base base)).Lookup Tweet d hist ids pl).params.fields, none⟩] ∧
    ((NewStatusService (Sling.Base base)).Update Tweet d hist status pu).hist = hist ++
      [⟨"POST", base ++ "statuses/" ++ "update.json", [],
        some (reflectValue ((NewStatusService (Sling.Base base)).Update Tweet d hist status pu).params.fields)⟩] ∧
    ((NewStatusService (Sling.Base base)).Retweet Tweet d hist id pr).hist = hist ++
      [⟨"POST", base ++ "statuses/" ++ ("retweet/" ++ FormatInt id ++ ".json"), [],
        some (reflectValue ((NewStatusService (Sling.Base base)).Retweet Tweet d hist id pr).params.fields)⟩] ∧
    ((NewStatusService (Sling.Base base)).Destroy Tweet d hist id pd).hist = hist ++
      [⟨"POST", base ++ "statuses/" ++ ("destroy/" ++ FormatInt id ++ ".json"), [],
        some (reflectValue ((NewStatusService (Sling.Base base)).Destroy Tweet d hist id pd).params.fields)⟩] := by
  have hs : (NewStatusService (Sling.Base base)).sling.rawURL = base ++ "statuses/" := by
    rw [service_sling]
    exact resolve_of_dirBase hb _
  have hr : ∀ ref : String,
      resolveReference (resolveReference base "statuses/") ref = base ++ "statuses/" ++ ref := by
    intro ref
    rw [resolve_in_service, resolve_of_dirBase hb]
  refine ⟨hs, ?_, ?_, ?_, ?_, ?_⟩
  · rw [Show_hist, service_sling]
    simp only [hr]
    rfl
  · rw [Lookup_hist, service_sling]
    simp only [hr]
    rfl
  · rw [Update_hist, service_sling]
    simp only [hr]
    rfl
  · rw [Retweet_hist, service_sling]
    simp only [hr]
    rfl
  · rw [Destroy_hist, service_sling]
    simp only [hr]
    rfl

/-- C9 (witness): the base URL `https://api.twitter.com/1.1/` has a directory
path; there the service URL is `https://api.twitter.com/1.1/statuses/`,
`Show(5, nil)` is a GET to `https://api.twitter.com/1.1/statuses/show.json`
with the query `id=5` and no body, and `Update("hi", nil)` is a POST to
`https://api.twitter.com/1.1/statuses/update.json` with an empty query and the
body `status=hi`. -/
theorem verb_path_placement_witness :
    dirBase "https://api.twitter.com/1.1/" = true ∧
    (NewStatusService (Sling.Base "https://api.twitter.com/1.1/")).sling.rawURL
      = "https://api.twitter.com/1.1/statuses/" ∧
    ((NewStatusService (Sling.Base "https://api.twitter.com/1.1/")).Show Unit quietDoer [] 5 none).hist
      = [⟨"GET", "https://api.twitter.com/1.1/statuses/show.json", [("id", "5")], none⟩] ∧
    ((NewStatusService (Sling.Base "https://api.twitter.com/1.1/")).Update Unit quietDoer [] "hi" none).hist
      = [⟨"POST", "https://api.twitter.com/1.1/statuses/update.json", [],
          some [("status", "hi")]⟩] :=
  ⟨by decide,
    (verb_path_placement Unit "https://api.twitter.com/1.1/" quietDoer [] 5 [] "hi" none none none none none
      (by decide)).1.trans (by decide),
    (verb_path_placement Unit "https://api.twitter.com/1.1/" quietDoer [] 5 [] "hi" none none none none none
      (by decide)).2.1.trans (by decide),
    (verb_path_placement Unit "https://api.twitter.com/1.1/" quietDoer [] 5 [] "hi" none none none none none
      (by decide)).2.2.2.1.trans (by decide)⟩

/-- C10: on a service whose builder carries a base URL only, a required
argument equal to the zero value of its type is dropped from the encoding and
any other value appears under its key exactly once: the query string of
`Show(id, params)` has the key `id` no times when id is 0 and once otherwise;
the body of `Update(status, params)` has the key `status` no times when status
is empty and once otherwise; the query string of `Lookup(ids, params)` has the
key `id` no times when `params.Id ++ ids` is empty and once otherwise. -/
theorem zero_required_argument_is_dropped (Tweet : Type) [Inhabited Tweet] {R E : Type}
    (base : String) (d : Doer R E) (hist : List HttpRequest) (id : Int) (ids : List Int)
    (status : String) (ps : Option StatusShowParams) (pl : Option StatusLookupParams)
    (pu : Option StatusUpdateParams) :
    (∃ r : HttpRequest,
      ((NewStatusService (Sling.Base base)).Show Tweet d hist id ps).hist = hist ++ [r] ∧
      r.query.keys.count "id" = (if id = 0 then 0 else 1)) ∧
    (∃ r : HttpRequest,
      ((NewStatusService (Sling.Base base)).Update Tweet d hist status pu).hist
        = hist ++ [r] ∧
      (r.body.getD []).keys.count "status" = (if status = "" then 0 else 1)) ∧
    (∃ r : HttpRequest,
      ((NewStatusService (Sling.Base base)).Lookup Tweet d hist ids pl).hist = hist ++ [r] ∧
      r.query.keys.count "id" = (if (pl.getD {}).Id ++ ids = [] then 0 else 1)) := by
  refine ⟨⟨_, Show_hist Tweet _ d hist id ps, ?_⟩, ⟨_, Update_hist Tweet _ d hist status pu, ?_⟩,
    ⟨_, Lookup_hist Tweet _ d hist ids pl, ?_⟩⟩
  · rw [keys_count]
    by_cases h : id = 0 <;> simp [service_sling, getAll_show_id, h]
  · rw [keys_count]
    by_cases h : status = "" <;> simp [getAll_update_status, h]
  · rw [keys_count]
    by_cases h : (pl.getD {}).Id ++ ids = []
    · simp only [service_sling, List.map_nil, List.flatten_nil, List.nil_append,
        getAll_lookup_id, h, if_true]
      rfl
    · simp only [service_sling, List.map_nil, List.flatten_nil, List.nil_append,
        getAll_lookup_id, h, if_false]
      rfl

/-- C4: on a service whose builder carries a base URL only, for each of the
five operations and every params value, what the one request holds under the
key of an optional parameter is read off the field alone: nothing when the
field is unset (nil pointer, zero integer, empty string, empty list), and for
a boolean that is set the one value `true` or `false`, so a boolean set to
false does contribute its key with the value `false`. The reads put these
parameters in the query string and have no body; the writes put them in the
body and add nothing to the query string. With absent params the encoding
holds the required parameter only (and nothing at all when that one is zero),
so no optional key. The printed booleans are the texts `false` and `true`;
on the base URL `https://api.twitter.com/1.1/`, `Show(5, params)` with
`TrimUser` set to false sends the query `id=5`, `trim_user=false`, Lookup with
`Map` set to false sends `map=false`, Update with `PossiblySensitive` set to
false and `DisplayCoordinates` set to true sends `possibly_sensitive=false`
and `display_coordinates=true` in the body, and Retweet and Destroy with
`TrimUser` set to false send `trim_user=false` in the body. -/
theorem optional_parameters_unset_or_sent (Tweet : Type) [Inhabited Tweet] {R E : Type}
    (base : String) (d : Doer R E) (hist : List HttpRequest) (id : Int) (ids : List Int)
    (status : String) (ps : Option StatusShowParams) (pl : Option StatusLookupParams)
    (pu : Option StatusUpdateParams) (pr : Option StatusRetweetParams)
    (pd : Option StatusDestroyParams) :
    (∃ r : HttpRequest, ((NewStatusService (Sling.Base base)).Show Tweet d hist id ps).hist = hist ++ [r] ∧ r.body = none ∧
      r.query.getAll "trim_user" = ((ps.getD {}).TrimUser.map FormatBool).toList ∧
      r.query.getAll "include_my_retweet"
        = ((ps.getD {}).IncludeMyRetweet.map FormatBool).toList ∧
      r.query.getAll "include_entities"
        = ((ps.getD {}).IncludeEntities.map FormatBool).toList) ∧
    (∃ r : HttpRequest, ((NewStatusService (Sling.Base base)).Lookup Tweet d hist ids pl).hist = hist ++ [r] ∧ r.body = none ∧
      r.query.getAll "trim_user" = ((pl.getD {}).TrimUser.map FormatBool).toList ∧
      r.query.getAll "include_entities"
        = ((pl.getD {}).IncludeEntities.map FormatBool).toList ∧
      r.query.getAll "map" = ((pl.getD {}).Map.map FormatBool).toList) ∧
    (∃ r : HttpRequest, ((NewStatusService (Sling.Base base)).Update Tweet d hist status pu).hist = hist ++ [r] ∧
      r.query = [] ∧
      (r.body.getD []).getAll "in_reply_to_status_id"
        = (if (pu.getD {}).InReplyToStatusId = 0 then []
            else [FormatInt (pu.getD {}).InReplyToStatusId]) ∧
      (r.body.getD []).getAll "possibly_sensitive"
        = ((pu.getD {}).PossiblySensitive.map FormatBool).toList ∧
      (r.body.getD []).getAll "lat" = ((pu.getD {}).Lat.map Float64.text).toList ∧
      (r.body.getD []).getAll "long" = ((pu.getD {}).Long.map Float64.text).toList ∧
      (r.body.getD []).getAll "place_id"
        = (if (pu.getD {}).PlaceId = "" then [] else [(pu.getD {}).PlaceId]) ∧
      (r.body.getD []).getAll "display_coordinates"
        = ((pu.getD {}).DisplayCoordinates.map FormatBool).toList ∧
      (r.body.getD []).getAll "trim_user" = ((pu.getD {}).TrimUser.map FormatBool).toList ∧
      (r.body.getD []).getAll "media_ids"
        = (if (pu.getD {}).MediaIds = [] then []
            else [",".intercalate ((pu.getD {}).MediaIds.map FormatInt)])) ∧
    (∃ r : HttpRequest, ((NewStatusService (Sling.Base base)).Retweet Tweet d hist id pr).hist = hist ++ [r] ∧
      r.query = [] ∧
      (r.body.getD []).getAll "trim_user" = ((pr.getD {}).TrimUser.map FormatBool).toList) ∧
    (∃ r : HttpRequest, ((NewStatusService (Sling.Base base)).Destroy Tweet d hist id pd).hist = hist ++ [r] ∧
      r.query = [] ∧
      (r.body.getD []).getAll "trim_user" = ((pd.getD {}).TrimUser.map FormatBool).toList) ∧
    (∃ r : HttpRequest, ((NewStatusService (Sling.Base base)).Show Tweet d hist id none).hist = hist ++ [r] ∧
      r.query = (if id = 0 then [] else [("id", FormatInt id)]) ∧ r.body = none) ∧
    (∃ r : HttpRequest, ((NewStatusService (Sling.Base base)).Lookup Tweet d hist ids none).hist = hist ++ [r] ∧
      r.query = (if ids = [] then [] else [("id", ",".intercalate (ids.map FormatInt))]) ∧
      r.body = none) ∧
    (∃ r : HttpRequest, ((NewStatusService (Sling.Base base)).Update Tweet d hist status none).hist = hist ++ [r] ∧
      r.query = [] ∧ r.body = some (if status = "" then [] else [("status", status)])) ∧
    (∃ r : HttpRequest, ((NewStatusService (Sling.Base base)).Retweet Tweet d hist id none).hist = hist ++ [r] ∧
      r.query = [] ∧ r.body = some (if id = 0 then [] else [("id", FormatInt id)])) ∧
    (∃ r : HttpRequest, ((NewStatusService (Sling.Base base)).Destroy Tweet d hist id none).hist = hist ++ [r] ∧
      r.query = [] ∧ r.body = some (if id = 0 then [] else [("id", FormatInt id)])) ∧
    FormatBool false = "false" ∧ FormatBool true = "true" ∧
    ((NewStatusService (Sling.Base "https://api.twitter.com/1.1/")).Show Tweet d hist 5 (some { TrimUser := some false })).hist = hist ++
      [⟨"GET", "https://api.twitter.com/1.1/statuses/show.json",
        [("id", "5"), ("trim_user", "false")], none⟩] ∧
    ((NewStatusService (Sling.Base "https://api.twitter.com/1.1/")).Lookup Tweet d hist [1] (some { Map := some false })).hist = hist ++
      [⟨"GET", "https://api.twitter.com/1.1/statuses/lookup.json",
        [("id", "1"), ("map", "false")], none⟩] ∧
    ((NewStatusService (Sling.Base "https://api.twitter.com/1.1/")).Update Tweet d hist "hi"
        (some { PossiblySensitive := some false, DisplayCoordinates := some true })).hist
      = hist ++
      [⟨"POST", "https://api.twitter.com/1.1/statuses/update.json", [],
        some [("status", "hi"), ("possibly_sensitive", "false"),
          ("display_coordinates", "true")]⟩] ∧
    ((NewStatusService (Sling.Base "https://api.twitter.com/1.1/")).Retweet Tweet d hist 5 (some { TrimUser := some false })).hist = hist ++
      [⟨"POST", "https://api.twitter.com/1.1/statuses/retweet/5.json", [],
        some [("id", "5"), ("trim_user", "false")]⟩] ∧
    ((NewStatusService (Sling.Base "https://api.twitter.com/1.1/")).Destroy Tweet d hist 5 (some { TrimUser := some false })).hist = hist ++
      [⟨"POST", "https://api.twitter.com/1.1/statuses/destroy/5.json", [],
        some [("id", "5"), ("trim_user", "false")]⟩] := by
  refine ⟨⟨_, Show_hist Tweet _ d hist id ps, rfl, ?_, ?_, ?_⟩,
    ⟨_, Lookup_hist Tweet _ d hist ids pl, rfl, ?_, ?_, ?_⟩,
    ⟨_, Update_hist Tweet _ d hist status pu, rfl, ?_, ?_, ?_, ?_, ?_, ?_, ?_, ?_⟩,
    ⟨_, Retweet_hist Tweet _ d hist id pr, rfl, ?_⟩,
    ⟨_, Destroy_hist Tweet _ d hist id pd, rfl, ?_⟩,
    ⟨_, Show_hist Tweet _ d hist id none, ?_, rfl⟩,
    ⟨_, Lookup_hist Tweet _ d hist ids none, ?_, rfl⟩,
    ⟨_, Update_hist Tweet _ d hist status none, rfl, ?_⟩,
    ⟨_, Retweet_hist Tweet _ d hist id none, rfl, ?_⟩,
    ⟨_, Destroy_hist Tweet _ d hist id none, rfl, ?_⟩,
    rfl, rfl,
    (Show_hist Tweet _ d hist 5 _).trans rfl,
    (Lookup_hist Tweet _ d hist [1] _).trans rfl,
    (Update_hist Tweet _ d hist "hi" _).trans rfl,
    (Retweet_hist Tweet _ d hist 5 _).trans rfl,
    (Destroy_hist Tweet _ d hist 5 _).trans rfl⟩
  all_goals
    simp [service_sling, reflectValue_show, reflectValue_lookup, reflectValue_update,
      reflectValue_retweet, reflectValue_destroy, getAll_append, getAll_cons, getAll_option,
      getAll_ite, getAll_nil]

end Twitter
